import Mathlib

/-!
# Verification of the datavisualizer inference-and-synthesis pipeline

Shallow embedding of the core pipeline of the `datavisualizer` repository:
the schema inferencer (`inferColumnType`), the insight generator
(`calculateStats`, `formatNumber`, `generateInsights`), the Vega-Lite spec
builders (`buildBarSpec` … `buildSpecFromIntent`), the prompt parser
(`normalizeText`, `findChartType`, `findFieldMatches`, `findAggregation`,
`parsePrompt`) and the chart recommender (`getColumnsByType`,
`calculateSuitability`, `recommendCharts`).

Modelling conventions:
* JavaScript IEEE-754 doubles are modelled as exact rationals (`ℚ`).  Every
  comparison settled by a claim is far from any rounding boundary, and the
  `NaN` / `Infinity` corner cases are handled explicitly where the source
  can produce them (divisions by zero, `parseFloat` failures).
* JavaScript scalars occurring in data rows are modelled by the inductive
  type `JsValue`; `null` and `undefined` are merged into one constructor
  because every use in the source treats them identically.
* `Array.prototype.sort` is required to be stable by ECMA-262 (2019+); it is
  modelled by a stable insertion sort (`sortWith`).
* `Date.parse` is a host-environment builtin with implementation-defined
  behaviour on non-ISO strings, so `inferColumnType` is parameterised by a
  `dateParse : String → Bool` oracle (`true` means the host parses the
  string as a valid date).
-/

-- The kernel must be able to evaluate concrete rational arithmetic for the
-- executable witnesses below; these core operations are sealed (irreducible)
-- by default purely for elaborator performance.
unseal Rat.add Rat.mul Rat.inv Rat.sub

/-- JavaScript scalar values as they occur in parsed data rows.
`null` covers both `null` and `undefined`, which every function under study
treats identically (`v !== null && v !== undefined` filters, and
`String(null)`/`String(undefined)` both fail `parseFloat`). -/
inductive JsValue where
  | num (q : ℚ)
  | str (s : String)
  | bool (b : Bool)
  | date
  | null
deriving DecidableEq, Repr

/-- A data row: `Record<string, unknown>` modelled as an association list
from column name to scalar. -/
def Row : Type := List (String × JsValue)

instance : DecidableEq Row := inferInstanceAs (DecidableEq (List (String × JsValue)))

instance : Repr Row := inferInstanceAs (Repr (List (String × JsValue)))

/-- `row[name]`: first binding wins, as for JS object property access. -/
def rowGet (row : Row) (name : String) : Option JsValue :=
  (List.find? (fun p => p.1 == name) row).map (fun p => p.2)

/-! ## String utilities (JS semantics) -/

/-- `needle` is a prefix of `hay` (character lists). -/
def isPrefixList : List Char → List Char → Bool
  | [], _ => true
  | _ :: _, [] => false
  | a :: as, b :: bs => a == b && isPrefixList as bs

/-- `needle` occurs somewhere in `hay` (character lists). -/
def isInfixList (needle : List Char) : List Char → Bool
  | [] => needle.isEmpty
  | c :: h => isPrefixList needle (c :: h) || isInfixList needle h

/-- JS `hay.includes(needle)`. -/
def containsSubstr (hay needle : String) : Bool :=
  isInfixList needle.toList hay.toList

/-- JS `String.prototype.toLowerCase`, restricted to ASCII case mapping.
All strings appearing in the claims are ASCII or already-lowercase Turkish,
on which the two agree. -/
def jsToLower (s : String) : String := String.mk (s.toList.map Char.toLower)

/-- The punctuation class of `normalizeText`'s regex
`[.,!?;:'"()[\]{}]` (braces written via escapes). -/
def isPromptPunct (c : Char) : Bool :=
  c == '.' || c == ',' || c == '!' || c == '?' || c == ';' || c == ':' ||
  c == '\'' || c == '"' || c == '(' || c == ')' || c == '[' || c == ']' ||
  c == '\x7b' || c == '\x7d'

/-- JS `\s` whitespace (the characters that can occur in our inputs). -/
def isJsSpace (c : Char) : Bool :=
  c == ' ' || c == '\t' || c == '\n' || c == '\r'

/-- Worker for `collapseWs`: `inRun` records whether the previous
character belonged to a whitespace run that has already emitted its
single replacement space. -/
def collapseWsAux (inRun : Bool) : List Char → List Char
  | [] => []
  | c :: cs =>
    if isJsSpace c then
      if inRun then collapseWsAux true cs
      else ' ' :: collapseWsAux true cs
    else c :: collapseWsAux false cs

/-- Replace each maximal run of whitespace by a single space
(the `/\s+/g → ' '` substitution). -/
def collapseWs (l : List Char) : List Char := collapseWsAux false l

/-- Drop leading and trailing whitespace (JS `String.prototype.trim`,
restricted to the whitespace characters above). -/
def trimWs (l : List Char) : List Char :=
  ((l.dropWhile isJsSpace).reverse.dropWhile isJsSpace).reverse

/-- `normalizeText` from `promptParser.ts`: lowercase, replace punctuation
with spaces, collapse whitespace runs, trim. -/
def normalizeText (text : String) : String :=
  let lowered := (jsToLower text).toList
  let depunct := lowered.map (fun c => if isPromptPunct c then ' ' else c)
  String.mk (trimWs (collapseWs depunct))

/-! ## JS `parseFloat` -/

def isAsciiDigit (c : Char) : Bool := '0' ≤ c && c ≤ '9'

def digitVal (c : Char) : ℕ := c.toNat - '0'.toNat

/-- Value of a digit run read as a natural number. -/
def digitsToNat (ds : List Char) : ℕ :=
  ds.foldl (fun acc c => 10 * acc + digitVal c) 0

/-- Parse the exponent part `[eE][+-]?digits` if present; returns the
exponent as an integer (0 when absent, which is also JS behaviour: a
malformed exponent suffix is simply not consumed). -/
def parseExponent (cs : List Char) : ℤ :=
  match cs with
  | 'e' :: rest | 'E' :: rest =>
    let (sign, rest') : ℤ × List Char :=
      match rest with
      | '+' :: r => (1, r)
      | '-' :: r => (-1, r)
      | r => (1, r)
    let ds := rest'.takeWhile isAsciiDigit
    if ds.isEmpty then 0 else sign * (digitsToNat ds : ℤ)
  | _ => 0

/-- JS `parseFloat`: skip leading whitespace, optional sign, then the
longest decimal-literal prefix; `none` models `NaN`.
The `Infinity` literal (a non-finite JS number) is outside the rational
model and mapped to `none`; no input reachable from the claims contains it. -/
def jsParseFloat (s : String) : Option ℚ :=
  let cs := s.toList.dropWhile isJsSpace
  let (sign, cs') : ℚ × List Char :=
    match cs with
    | '+' :: r => (1, r)
    | '-' :: r => (-1, r)
    | r => (1, r)
  let intDigits := cs'.takeWhile isAsciiDigit
  let afterInt := cs'.dropWhile isAsciiDigit
  let (fracDigits, afterFrac) : List Char × List Char :=
    match afterInt with
    | '.' :: r => (r.takeWhile isAsciiDigit, r.dropWhile isAsciiDigit)
    | r => ([], r)
  if intDigits.isEmpty && fracDigits.isEmpty then
    none
  else
    let e := parseExponent afterFrac
    let mantissa : ℚ :=
      (digitsToNat intDigits : ℚ) +
        (digitsToNat fracDigits : ℚ) / ((10 : ℚ) ^ fracDigits.length)
    some (sign * mantissa * (10 : ℚ) ^ e)

/-! ## Stable sort (ECMA-262 `Array.prototype.sort`) -/

/-- Insert `a` into `l`, placing it before the first element `b` with
`le a b = false`…  more precisely `a` goes before `b` iff `le a b`; with
`le a b := ¬(b must precede a)` this is exactly a stable insertion. -/
def insertWith {α : Type} (le : α → α → Bool) (a : α) : List α → List α
  | [] => [a]
  | b :: l => if le a b then a :: b :: l else b :: insertWith le a l

/-- Stable insertion sort: stable because `insertWith` keeps an earlier
element in front of later elements that compare equal. -/
def sortWith {α : Type} (le : α → α → Bool) (l : List α) : List α :=
  l.foldr (insertWith le) []

theorem mem_insertWith {α : Type} (le : α → α → Bool) (a x : α) :
    ∀ l : List α, x ∈ insertWith le a l ↔ x = a ∨ x ∈ l := by
  intro l
  induction l with
  | nil => simp [insertWith]
  | cons b l ih =>
    by_cases h : le a b = true
    · simp [insertWith, h, List.mem_cons]
    · simp only [insertWith, if_neg h, List.mem_cons, ih]
      tauto

theorem mem_sortWith {α : Type} (le : α → α → Bool) (x : α) :
    ∀ l : List α, x ∈ sortWith le l ↔ x ∈ l := by
  intro l
  induction l with
  | nil => simp [sortWith]
  | cons b l ih =>
    simp only [sortWith, List.foldr_cons, List.mem_cons]
    rw [show l.foldr (insertWith le) [] = sortWith le l from rfl]
    rw [mem_insertWith, ih]

/-! ## Data model (`types/index.ts`) -/

/-- `ColumnType` union. -/
inductive ColumnType where
  | number
  | string
  | datetime
  | boolean
  | unknown
deriving DecidableEq, Repr

/-- `ChartType` union (all 17 variants of the TS type). -/
inductive ChartType where
  | bar
  | barHorizontal
  | barGrouped
  | barStacked
  | line
  | area
  | areaStacked
  | scatter
  | bubble
  | histogram
  | boxplot
  | heatmap
  | pie
  | donut
  | radar
  | timeline
  | combo
deriving DecidableEq, Repr

/-- `ChartCategory` union. -/
inductive ChartCategory where
  | trend
  | distribution
  | relationship
  | composition
  | comparison
deriving DecidableEq, Repr

/-- Aggregation union `'sum' | 'mean' | 'count' | 'min' | 'max'`. -/
inductive Aggregation where
  | sum
  | mean
  | count
  | min
  | max
deriving DecidableEq, Repr

/-- `ColumnSchema`.  The source field `nullRatio` is named `nullShare`
here (same value: `nullCount / totalRowCount`, 0 for an empty column). -/
structure ColumnSchema where
  name : String
  type : ColumnType
  sampleValues : List JsValue
  uniqueCount : ℕ
  nullCount : ℕ
  nullShare : ℚ
deriving DecidableEq, Repr

/-- File type tag `'csv' | 'json' | 'xlsx'`. -/
inductive FileType where
  | csv
  | json
  | xlsx
deriving DecidableEq, Repr

/-- `DatasetSchema`. -/
structure DatasetSchema where
  columns : List ColumnSchema
  rowCount : ℕ
  fileName : String
  fileType : FileType
deriving DecidableEq, Repr

/-- `ChartIntent`.  The fields `filterConditions`, `sortOrder` and
`timeGranularity` of the TS interface are never read or written by any
function under study and are omitted. -/
structure ChartIntent where
  chartType : Option ChartType := none
  xField : Option String := none
  yField : Option String := none
  colorField : Option String := none
  sizeField : Option String := none
  aggregation : Option Aggregation := none
deriving DecidableEq, Repr

/-- Insight kind union. -/
inductive InsightKind where
  | max
  | min
  | trend
  | outlier
  | comparison
  | distribution
deriving DecidableEq, Repr

/-- `Insight`.  The optional `value` is `string | number` in TS, but every
assignment in the source stores a number, so it is modelled as `Option ℚ`. -/
structure Insight where
  type : InsightKind
  title : String
  description : String
  value : Option ℚ := none
deriving DecidableEq, Repr

/-! ## Schema inferencer (`dataAnalyzer` module: `inferColumnType`) -/

/-- The value is `null`, `undefined` or `''` (the filter
`v !== null && v !== undefined && v !== ''`; `===` is type-strict, so only
the string `''` is caught by the last comparison). -/
def isNullish (v : JsValue) : Bool :=
  v == JsValue.null || v == JsValue.str ""

/-- One value passes the boolean filter:
`typeof v === 'boolean' || v === 'true' | 'false' | 'True' | 'False' | '0' | '1'`. -/
def isBooleanish (v : JsValue) : Bool :=
  match v with
  | JsValue.bool _ => true
  | JsValue.str s =>
    s == "true" || s == "false" || s == "True" || s == "False" ||
    s == "0" || s == "1"
  | _ => false

/-- Strip `,` characters (the `v.replace(/,/g, '')` call). -/
def stripCommas (s : String) : String :=
  String.mk (s.toList.filter (fun c => c != ','))

/-- One value passes the numeric filter of `inferColumnType`:
native numbers (never `NaN` in the rational model), or strings whose
comma-stripped form `parseFloat`s to a non-`NaN` value. -/
def isNumericish (v : JsValue) : Bool :=
  match v with
  | JsValue.num _ => true
  | JsValue.str s => (jsParseFloat (stripCommas s)).isSome
  | _ => false

/-- `/^\d{4}-\d{2}-\d{2}/` (ISO prefix). -/
def matchIsoDate (cs : List Char) : Bool :=
  match cs with
  | a :: b :: c :: d :: '-' :: e :: f :: '-' :: g :: h :: _ =>
    isAsciiDigit a && isAsciiDigit b && isAsciiDigit c && isAsciiDigit d &&
    isAsciiDigit e && isAsciiDigit f && isAsciiDigit g && isAsciiDigit h
  | _ => false

/-- `/^\d{2}\/\d{2}\/\d{4}/` (US prefix). -/
def matchUsDate (cs : List Char) : Bool :=
  match cs with
  | a :: b :: '/' :: c :: d :: '/' :: e :: f :: g :: h :: _ =>
    isAsciiDigit a && isAsciiDigit b && isAsciiDigit c && isAsciiDigit d &&
    isAsciiDigit e && isAsciiDigit f && isAsciiDigit g && isAsciiDigit h
  | _ => false

/-- `/^\d{2}\.\d{2}\.\d{4}/` (EU prefix). -/
def matchEuDate (cs : List Char) : Bool :=
  match cs with
  | a :: b :: '.' :: c :: d :: '.' :: e :: f :: g :: h :: _ =>
    isAsciiDigit a && isAsciiDigit b && isAsciiDigit c && isAsciiDigit d &&
    isAsciiDigit e && isAsciiDigit f && isAsciiDigit g && isAsciiDigit h
  | _ => false

/-- `/^\d{4}\/\d{2}\/\d{2}/` (Japan prefix). -/
def matchJpDate (cs : List Char) : Bool :=
  match cs with
  | a :: b :: c :: d :: '/' :: e :: f :: '/' :: g :: h :: _ =>
    isAsciiDigit a && isAsciiDigit b && isAsciiDigit c && isAsciiDigit d &&
    isAsciiDigit e && isAsciiDigit f && isAsciiDigit g && isAsciiDigit h
  | _ => false

/-- `datePatterns.some(pattern => pattern.test(v))`. -/
def matchesDatePattern (s : String) : Bool :=
  matchIsoDate s.toList || matchUsDate s.toList ||
  matchEuDate s.toList || matchJpDate s.toList

/-- One value passes the date filter, given the host `Date.parse` oracle
(`dateParse s = true` models `!isNaN(Date.parse(s))`). -/
def isDateish (dateParse : String → Bool) (v : JsValue) : Bool :=
  match v with
  | JsValue.date => true
  | JsValue.str s => matchesDatePattern s || dateParse s
  | _ => false

/-- `inferColumnType` from the dataset analyzer, parameterised by the host
`Date.parse` oracle.  The `> nonNullValues.length * 0.8` comparison is
modelled exactly as `5 * count > 4 * total` (`0.8 = 4/5`). -/
def inferColumnType (dateParse : String → Bool) (values : List JsValue) :
    ColumnType :=
  let nonNullValues := values.filter (fun v => !isNullish v)
  if nonNullValues.isEmpty then ColumnType.unknown
  else
    let booleanValues := nonNullValues.filter isBooleanish
    if booleanValues.length == nonNullValues.length &&
        nonNullValues.length > 0 then
      ColumnType.boolean
    else
      let numericValues := nonNullValues.filter isNumericish
      if numericValues.length == nonNullValues.length then
        ColumnType.number
      else
        let dateValues := nonNullValues.filter (isDateish dateParse)
        if 5 * dateValues.length > 4 * nonNullValues.length then
          ColumnType.datetime
        else
          ColumnType.string

/-! ## Number formatting (`formatNumber`) -/

/-- ES `toFixed` rounding: the integer `n` minimising `|n / 10^f - q|`,
ties toward the larger `n`; that is `⌊q·10^f + 1/2⌋`. -/
def jsFixedInt (f : ℕ) (q : ℚ) : ℤ :=
  Int.floor (q * (10 : ℚ) ^ f + 1 / 2)

/-- Decimal rendering of a natural number with `f` forced fraction digits. -/
def natFixedString (f : ℕ) (m : ℕ) : String :=
  let frac := toString (m % 10 ^ f)
  toString (m / 10 ^ f) ++ "." ++
    String.mk (List.replicate (f - frac.length) '0') ++ frac

/-- JS `Number.prototype.toFixed(f)` for the magnitudes used by
`formatNumber` (all far below the `1e21` exponential-notation threshold). -/
def jsToFixed (f : ℕ) (q : ℚ) : String :=
  let n := jsFixedInt f q
  if n < 0 then "-" ++ natFixedString f n.natAbs else natFixedString f n.toNat

/-- JS `Number.prototype.toString` for integer values below the
exponential-notation threshold. -/
def jsIntToString (q : ℚ) : String :=
  if q < 0 then "-" ++ toString q.num.natAbs else toString q.num.natAbs

/-- `formatNumber` from the insight generator. -/
def formatNumber (num : ℚ) : String :=
  if |num| ≥ 1000000 then jsToFixed 1 (num / 1000000) ++ "M"
  else if |num| ≥ 1000 then jsToFixed 1 (num / 1000) ++ "K"
  else if num.den == 1 then jsIntToString num
  else jsToFixed 2 num

/-! ## Insight generator (`calculateStats`, `generateInsights`) -/

inductive TrendKind where
  | increasing
  | decreasing
  | stable
deriving DecidableEq, Repr

/-- `DataStats`.  The source stores `stdDev = Math.sqrt(variance)`, which is
irrational in general; the variance is stored instead and every use of
`stdDev` in the source is expressed through its squared equivalent
(`|v - mean| > 2·stdDev  ⟺  (v - mean)² > 4·variance`, both sides of the
original being nonnegative). -/
structure DataStats where
  statMin : ℚ
  statMax : ℚ
  mean : ℚ
  median : ℚ
  variance : ℚ
  trend : TrendKind
  outliers : List ℚ
deriving DecidableEq, Repr

/-- `calculateStats`.  Callers guarantee a nonempty value list (the source
indexes `sorted[0]` unconditionally); the `getD`/`headD` defaults are
never reached from `generateInsights`. -/
def calculateStats (values : List ℚ) : DataStats :=
  let sorted := sortWith (fun a b : ℚ => decide (a ≤ b)) values
  let n := values.length
  let statMin := sorted.headD 0
  let statMax := sorted.getLastD 0
  let mean := values.foldl (· + ·) 0 / (n : ℚ)
  let median :=
    if n % 2 == 0 then (sorted.getD (n / 2 - 1) 0 + sorted.getD (n / 2) 0) / 2
    else sorted.getD (n / 2) 0
  let variance := values.foldl (fun sum v => sum + (v - mean) ^ 2) 0 / (n : ℚ)
  let pairs := values.enum
  let sumX : ℚ := pairs.foldl (fun s p => s + (p.1 : ℚ)) 0
  let sumY : ℚ := pairs.foldl (fun s p => s + p.2) 0
  let sumXY : ℚ := pairs.foldl (fun s p => s + (p.1 : ℚ) * p.2) 0
  let sumX2 : ℚ := pairs.foldl (fun s p => s + (p.1 : ℚ) * (p.1 : ℚ)) 0
  -- The denominator is zero only for n ≤ 1, where the source computes
  -- slope = 0/0 = NaN and both NaN comparisons are false, i.e. 'stable'.
  let denom := (n : ℚ) * sumX2 - sumX * sumX
  let trend :=
    if denom == 0 then TrendKind.stable
    else
      let slope := ((n : ℚ) * sumXY - sumX * sumY) / denom
      if slope > mean / 10 then TrendKind.increasing
      else if slope < -(mean / 10) then TrendKind.decreasing
      else TrendKind.stable
  let outliers := values.filter (fun v => decide ((v - mean) ^ 2 > 4 * variance))
  ⟨statMin, statMax, mean, median, variance, trend, outliers⟩

/-- JS truthiness of an optional string (`undefined` and `''` are falsy). -/
def truthyStr (o : Option String) : Bool :=
  match o with
  | some s => !s.isEmpty
  | none => false

/-- `typeof val === 'number' ? val : parseFloat(String(val))`, combined with
the `!isNaN` filter (`none` = `NaN`).  `String()` of booleans, dates,
`null`/`undefined` and missing properties never `parseFloat`s. -/
def jsToNumber (v : Option JsValue) : Option ℚ :=
  match v with
  | some (JsValue.num q) => some q
  | some (JsValue.str s) => jsParseFloat s
  | _ => none

/-- `String(v)` as used for category keys.  JS shortest-roundtrip float
printing is not modelled: integer numbers (the only numeric keys reachable
in practice) print identically, and no claim inspects non-integer keys. -/
def jsDisplayString (v : Option JsValue) : String :=
  match v with
  | some (JsValue.num q) => if q.den == 1 then jsIntToString q else toString q
  | some (JsValue.str s) => s
  | some (JsValue.bool b) => if b then "true" else "false"
  | some JsValue.date => "[Date]"
  | some JsValue.null => "null"
  | none => "undefined"

/-- `categoryTotals[category] = (categoryTotals[category] || 0) + value`,
keys kept in first-insertion order.  (JS object enumeration reorders
integer-like keys first; no claim exercises such keys.) -/
def bumpTotal (k : String) (v : ℚ) :
    List (String × ℚ) → List (String × ℚ)
  | [] => [(k, v)]
  | (k', v') :: rest =>
    if k' == k then (k', v' + v) :: rest else (k', v') :: bumpTotal k v rest

/-- `stdDev / mean > 0.5` with `stdDev = √variance`:
for `mean > 0` this is `variance > mean²/4`; for `mean < 0` the ratio is
nonpositive, hence false; for `mean = 0` JS yields `Infinity > 0.5` (true)
when `stdDev > 0` and `NaN > 0.5` (false) when `stdDev = 0`. -/
def spreadGtHalf (mean variance : ℚ) : Bool :=
  if mean > 0 then decide (variance > mean ^ 2 / 4)
  else if mean == 0 then decide (variance ≠ 0)
  else false

/-- The numeric-column filter of `generateInsights`. -/
def numericColumnsOf (schema : DatasetSchema) : List ColumnSchema :=
  schema.columns.filter (fun c : ColumnSchema => c.type == ColumnType.number)

/-- The target-column statement of `generateInsights`:
`yField ? numericColumns.find(c => c.name === yField) : numericColumns[0]`
(an empty-string hint is falsy and also selects `numericColumns[0]`). -/
def targetColumnOf (schema : DatasetSchema) (yField : Option String) :
    Option ColumnSchema :=
  if truthyStr yField then
    (numericColumnsOf schema).find?
      (fun c : ColumnSchema => c.name == yField.getD "")
  else (numericColumnsOf schema).head?

/-- The body of `generateInsights` from the target column on. -/
def insightsForTarget (data : List Row) (schema : DatasetSchema)
    (xField : Option String) (targetCol : ColumnSchema) : List Insight :=
      let values := data.filterMap (fun row => jsToNumber (rowGet row targetCol.name))
      if values.isEmpty then []
      else
        let stats := calculateStats values
        let maxInsight : Insight :=
          { type := InsightKind.max
            title := "Highest Value"
            description := "The maximum " ++ targetCol.name ++ " is " ++
              formatNumber stats.statMax
            value := some stats.statMax }
        let minInsight : Insight :=
          { type := InsightKind.min
            title := "Lowest Value"
            description := "The minimum " ++ targetCol.name ++ " is " ++
              formatNumber stats.statMin
            value := some stats.statMin }
        let trendInsights : List Insight :=
          if truthyStr xField then
            let x := xField.getD ""
            let descr :=
              match stats.trend with
              | TrendKind.increasing =>
                targetCol.name ++ " shows an upward trend over " ++ x
              | TrendKind.decreasing =>
                targetCol.name ++ " shows a downward trend over " ++ x
              | TrendKind.stable =>
                targetCol.name ++ " remains relatively stable over " ++ x
            [{ type := InsightKind.trend
               title :=
                 match stats.trend with
                 | TrendKind.increasing => "Upward Trend"
                 | TrendKind.decreasing => "Downward Trend"
                 | TrendKind.stable => "Stable Pattern"
               description := descr }]
          else []
        let outlierInsights : List Insight :=
          if stats.outliers.length > 0 then
            [{ type := InsightKind.outlier
               title := "Outliers Detected"
               description := "Found " ++ toString stats.outliers.length ++
                 " outlier" ++ (if stats.outliers.length > 1 then "s" else "") ++
                 " that deviate significantly from the average"
               value := some (stats.outliers.length : ℚ) }]
          else []
        let range := stats.statMax - stats.statMin
        let distributionInsight : Insight :=
          if spreadGtHalf stats.mean stats.variance then
            { type := InsightKind.distribution
              title := "High Variability"
              description := targetCol.name ++ " values vary widely (range: " ++
                formatNumber range ++ ")" }
          else
            { type := InsightKind.distribution
              title := "Low Variability"
              description := targetCol.name ++
                " values are fairly consistent around " ++
                formatNumber stats.mean }
        -- `schema.columns.find(c => c.type === 'string' && c.name === xField)`
        -- (strict equality: an undefined hint matches no column).
        let categoricalColumn :=
          match xField with
          | some x => schema.columns.find?
              (fun c : ColumnSchema => c.type == ColumnType.string && c.name == x)
          | none => none
        let comparisonInsights : List Insight :=
          match categoricalColumn with
          | none => []
          | some catCol =>
            let categoryTotals := data.foldl (fun totals row =>
              let category := jsDisplayString (rowGet row catCol.name)
              match jsToNumber (rowGet row targetCol.name) with
              | some value => bumpTotal category value totals
              | none => totals) []
            let sortedTotals :=
              sortWith (fun a b : String × ℚ => decide (b.2 ≤ a.2)) categoryTotals
            match sortedTotals.head? with
            | none => []
            | some top =>
              [{ type := InsightKind.comparison
                 title := "Top Performer"
                 description := "\"" ++ top.1 ++ "\" leads with " ++
                   formatNumber top.2 ++ " total " ++ targetCol.name
                 value := some top.2 }]
        [maxInsight, minInsight] ++ trendInsights ++ outlierInsights ++
          [distributionInsight] ++ comparisonInsights

/-- `generateInsights` from the insights module. -/
def generateInsights (data : List Row) (schema : DatasetSchema)
    (xField yField : Option String) : List Insight :=
  if data.isEmpty then []
  else
    match targetColumnOf schema yField with
    | none => []
    | some targetCol => insightsForTarget data schema xField targetCol

/-! ## Spec compiler (`vegaSpecBuilder` module) -/

/-- One encoding channel.  Purely visual constants that never vary
(axis label angles, the fixed `AURORA_COLORS` palette / `viridis` scheme
references) are not modelled; every structural property (field, type,
aggregate, stacking, binning, sort, fixed-value channels) is. -/
structure EncodingChannel where
  fieldName : Option String := none
  channelType : Option String := none
  aggregate : Option String := none
  stack : Option String := none
  bin : Bool := false
  sortDescY : Bool := false
  fixedValue : Bool := false
deriving DecidableEq, Repr

/-- The encoding map (channels used anywhere in the builders). -/
structure EncodingMap where
  x : Option EncodingChannel := none
  y : Option EncodingChannel := none
  color : Option EncodingChannel := none
  size : Option EncodingChannel := none
  theta : Option EncodingChannel := none
deriving DecidableEq, Repr

/-- One layer of a layered (combo) spec. -/
structure SpecLayer where
  mark : String
  encoding : EncodingMap
deriving DecidableEq, Repr

/-- A compiled Vega-Lite document.  The `$schema` URL and the shared
dark-theme `config` block are fixed constants in the source and are not
modelled; `width = none` renders the `'container'` sizing hint. -/
structure VegaLiteSpec where
  data : List Row
  mark : Option String := none
  markInnerRadius : Option ℕ := none
  encoding : EncodingMap := {}
  layer : List SpecLayer := []
  width : Option ℕ := none
  height : ℕ := 300
deriving DecidableEq, Repr

/-- `buildBarSpec`. -/
def buildBarSpec (data : List Row) (x y : String) (color : Option String)
    (horizontal : Bool := false) (stacked : Bool := false) : VegaLiteSpec :=
  let catChannel : EncodingChannel :=
    { fieldName := some x, channelType := some "nominal", sortDescY := true }
  let measureBase : EncodingChannel :=
    { fieldName := some y, channelType := some "quantitative",
      aggregate := some "sum" }
  -- the `stack: 'normalize'` patch is applied only inside `if (color)`
  let measureChannel :=
    if truthyStr color && stacked then
      { measureBase with stack := some "normalize" }
    else measureBase
  let colorChannel :=
    if truthyStr color then
      some { fieldName := color, channelType := some "nominal" }
    else (none : Option EncodingChannel)
  { data := data
    mark := some "bar"
    encoding :=
      if horizontal then
        { x := some measureChannel, y := some catChannel, color := colorChannel }
      else
        { x := some catChannel, y := some measureChannel, color := colorChannel } }

/-- `buildLineSpec`. -/
def buildLineSpec (data : List Row) (x y : String) (color : Option String) :
    VegaLiteSpec :=
  { data := data
    mark := some "line"
    encoding :=
      { x := some { fieldName := some x, channelType := some "temporal" }
        y := some { fieldName := some y, channelType := some "quantitative",
                    aggregate := some "sum" }
        color :=
          if truthyStr color then
            some { fieldName := color, channelType := some "nominal" }
          else none } }

/-- `buildAreaSpec` (the stack flag is applied on `y` independently of the
color field, unlike the bar builder). -/
def buildAreaSpec (data : List Row) (x y : String) (color : Option String)
    (stacked : Bool := false) : VegaLiteSpec :=
  { data := data
    mark := some "area"
    encoding :=
      { x := some { fieldName := some x, channelType := some "temporal" }
        y := some { fieldName := some y, channelType := some "quantitative",
                    aggregate := some "sum",
                    stack := if stacked then some "normalize" else none }
        color :=
          if truthyStr color then
            some { fieldName := color, channelType := some "nominal" }
          else none } }

/-- `buildScatterSpec`. -/
def buildScatterSpec (data : List Row) (x y : String)
    (color : Option String) (size : Option String) : VegaLiteSpec :=
  { data := data
    mark := some "circle"
    encoding :=
      { x := some { fieldName := some x, channelType := some "quantitative" }
        y := some { fieldName := some y, channelType := some "quantitative" }
        color :=
          if truthyStr color then
            some { fieldName := color, channelType := some "nominal" }
          else none
        size :=
          if truthyStr size then
            some { fieldName := size, channelType := some "quantitative" }
          else none } }

/-- `buildHistogramSpec`. -/
def buildHistogramSpec (data : List Row) (field : String) : VegaLiteSpec :=
  { data := data
    mark := some "bar"
    encoding :=
      { x := some { fieldName := some field, channelType := some "quantitative",
                    bin := true }
        y := some { channelType := some "quantitative",
                    aggregate := some "count" }
        color := some { fixedValue := true } } }

/-- `buildBoxplotSpec`. -/
def buildBoxplotSpec (data : List Row) (category value : String) :
    VegaLiteSpec :=
  { data := data
    mark := some "boxplot"
    encoding :=
      { x := some { fieldName := some category, channelType := some "nominal" }
        y := some { fieldName := some value, channelType := some "quantitative" }
        color := some { fieldName := some category,
                        channelType := some "nominal" } } }

/-- `buildHeatmapSpec`. -/
def buildHeatmapSpec (data : List Row) (x y color : String) : VegaLiteSpec :=
  { data := data
    mark := some "rect"
    encoding :=
      { x := some { fieldName := some x, channelType := some "nominal" }
        y := some { fieldName := some y, channelType := some "nominal" }
        color := some { fieldName := some color,
                        channelType := some "quantitative",
                        aggregate := some "mean" } } }

/-- `buildPieSpec`. -/
def buildPieSpec (data : List Row) (category value : String)
    (donut : Bool := false) : VegaLiteSpec :=
  { data := data
    mark := some "arc"
    markInnerRadius := some (if donut then 50 else 0)
    encoding :=
      { theta := some { fieldName := some value,
                        channelType := some "quantitative",
                        aggregate := some "sum" }
        color := some { fieldName := some category,
                        channelType := some "nominal" } }
    width := some 300 }

/-- `buildComboSpec`. -/
def buildComboSpec (data : List Row) (x barY lineY : String) : VegaLiteSpec :=
  { data := data
    layer :=
      [ { mark := "bar"
          encoding :=
            { x := some { fieldName := some x, channelType := some "nominal" }
              y := some { fieldName := some barY,
                          channelType := some "quantitative",
                          aggregate := some "sum" } } }
      , { mark := "line"
          encoding :=
            { x := some { fieldName := some x, channelType := some "nominal" }
              y := some { fieldName := some lineY,
                          channelType := some "quantitative",
                          aggregate := some "sum" } } } ] }

/-- JS `a || b` on field names, with a string fallback. -/
def jsOrStr (a : Option String) (b : String) : String :=
  match a with
  | some s => if s.isEmpty then b else s
  | none => b

/-- JS `a || b` on two optional field names. -/
def jsOrOpt (a b : Option String) : Option String :=
  if truthyStr a then a else b

/-- `buildSpecFromIntent`.  The guard `if (!chartType || !xField) return null`
uses JS truthiness: a missing chart type, a missing x field, or an
empty-string x field yields `null`; chart-type strings are nonempty
literals, so the chart type is falsy exactly when absent. -/
def buildSpecFromIntent (data : List Row) (schema : DatasetSchema)
    (intent : ChartIntent) : Option VegaLiteSpec :=
  match intent.chartType, intent.xField with
  | none, _ => none
  | _, none => none
  | some chartType, some xField =>
    if xField.isEmpty then none
    else
      let yField := intent.yField
      let colorField := intent.colorField
      let sizeField := intent.sizeField
      some <|
        match chartType with
        | ChartType.bar =>
          buildBarSpec data xField (jsOrStr yField xField) colorField
        | ChartType.barHorizontal =>
          buildBarSpec data xField (jsOrStr yField xField) colorField true
        | ChartType.barStacked =>
          buildBarSpec data xField (jsOrStr yField xField) colorField false true
        | ChartType.line =>
          buildLineSpec data xField (jsOrStr yField xField) colorField
        | ChartType.area =>
          buildAreaSpec data xField (jsOrStr yField xField) colorField
        | ChartType.areaStacked =>
          buildAreaSpec data xField (jsOrStr yField xField) colorField true
        | ChartType.scatter =>
          buildScatterSpec data xField (jsOrStr yField xField) colorField sizeField
        | ChartType.bubble =>
          buildScatterSpec data xField (jsOrStr yField xField) colorField
            (jsOrOpt sizeField yField)
        | ChartType.histogram =>
          buildHistogramSpec data xField
        | ChartType.boxplot =>
          buildBoxplotSpec data xField (jsOrStr yField xField)
        | ChartType.heatmap =>
          buildHeatmapSpec data xField (jsOrStr yField xField)
            (jsOrStr colorField (jsOrStr yField xField))
        | ChartType.pie =>
          buildPieSpec data xField (jsOrStr yField xField)
        | ChartType.donut =>
          buildPieSpec data xField (jsOrStr yField xField) true
        | ChartType.combo =>
          buildComboSpec data xField (jsOrStr yField xField)
            (jsOrStr colorField (jsOrStr yField xField))
        | _ =>
          -- `default:` branch of the switch
          buildBarSpec data xField (jsOrStr yField xField) colorField

/-! ## Intent parser (`promptParser.ts`) -/

/-- `CHART_TYPE_KEYWORDS`, in source (insertion) order.  All keys are
non-integer-like strings, so `Object.keys` enumerates them in exactly this
order. -/
def CHART_TYPE_KEYWORDS : List (String × List ChartType) :=
  [ ("bar", [ChartType.bar])
  , ("bar chart", [ChartType.bar])
  , ("çubuk", [ChartType.bar])
  , ("çubuk grafik", [ChartType.bar])
  , ("sütun", [ChartType.bar])
  , ("sütun grafik", [ChartType.bar])
  , ("horizontal bar", [ChartType.barHorizontal])
  , ("yatay çubuk", [ChartType.barHorizontal])
  , ("stacked bar", [ChartType.barStacked])
  , ("yığılmış çubuk", [ChartType.barStacked])
  , ("line", [ChartType.line])
  , ("line chart", [ChartType.line])
  , ("çizgi", [ChartType.line])
  , ("çizgi grafik", [ChartType.line])
  , ("trend", [ChartType.line])
  , ("zaman serisi", [ChartType.line])
  , ("time series", [ChartType.line])
  , ("area", [ChartType.area])
  , ("area chart", [ChartType.area])
  , ("alan", [ChartType.area])
  , ("alan grafik", [ChartType.area])
  , ("stacked area", [ChartType.areaStacked])
  , ("yığılmış alan", [ChartType.areaStacked])
  , ("scatter", [ChartType.scatter])
  , ("scatter plot", [ChartType.scatter])
  , ("saçılım", [ChartType.scatter])
  , ("nokta", [ChartType.scatter])
  , ("bubble", [ChartType.bubble])
  , ("bubble chart", [ChartType.bubble])
  , ("balon", [ChartType.bubble])
  , ("histogram", [ChartType.histogram])
  , ("histograms", [ChartType.histogram])
  , ("dağılım", [ChartType.histogram, ChartType.boxplot])
  , ("distribution", [ChartType.histogram, ChartType.boxplot])
  , ("boxplot", [ChartType.boxplot])
  , ("box plot", [ChartType.boxplot])
  , ("kutu", [ChartType.boxplot])
  , ("heatmap", [ChartType.heatmap])
  , ("heat map", [ChartType.heatmap])
  , ("ısı haritası", [ChartType.heatmap])
  , ("pie", [ChartType.pie])
  , ("pie chart", [ChartType.pie])
  , ("pasta", [ChartType.pie])
  , ("pasta grafik", [ChartType.pie])
  , ("donut", [ChartType.donut])
  , ("halka", [ChartType.donut])
  , ("combo", [ChartType.combo])
  , ("combined", [ChartType.combo])
  , ("birleşik", [ChartType.combo])
  ]

/-- `TIME_KEYWORDS`, in source order. -/
def TIME_KEYWORDS : List String :=
  [ "time", "date", "month", "year", "week", "day", "quarter"
  , "zaman", "tarih", "ay", "yıl", "hafta", "gün", "çeyrek"
  , "son", "last", "recent", "son dönem", "trend", "over time" ]

/-- `AGGREGATION_KEYWORDS`, in source (insertion) order. -/
def AGGREGATION_KEYWORDS : List (String × Aggregation) :=
  [ ("total", Aggregation.sum)
  , ("toplam", Aggregation.sum)
  , ("sum", Aggregation.sum)
  , ("average", Aggregation.mean)
  , ("ortalama", Aggregation.mean)
  , ("mean", Aggregation.mean)
  , ("count", Aggregation.count)
  , ("sayı", Aggregation.count)
  , ("adet", Aggregation.count)
  , ("minimum", Aggregation.min)
  , ("min", Aggregation.min)
  , ("en düşük", Aggregation.min)
  , ("maximum", Aggregation.max)
  , ("max", Aggregation.max)
  , ("en yüksek", Aggregation.max)
  ]

/-- `Object.keys(CHART_TYPE_KEYWORDS).sort((a, b) => b.length - a.length)`:
a stable sort by descending key length (all keys are BMP strings, so the
JS UTF-16 `length` equals the character count). -/
def sortedKeywords : List String :=
  sortWith (fun a b : String => decide (b.length ≤ a.length))
    (CHART_TYPE_KEYWORDS.map Prod.fst)

/-- `findChartType`. -/
def findChartType (text : String) : Option ChartType :=
  let normalized := normalizeText text
  match sortedKeywords.find? (fun keyword => containsSubstr normalized keyword) with
  | some keyword =>
    (((CHART_TYPE_KEYWORDS.find? (fun p => p.1 == keyword)).map Prod.snd).getD
      []).head?
  | none =>
    if TIME_KEYWORDS.any (fun timeKeyword => containsSubstr normalized timeKeyword)
    then some ChartType.line
    else none

/-- The mutable `result` record of `findFieldMatches`. -/
structure FieldMatches where
  xField : Option String := none
  yField : Option String := none
  colorField : Option String := none
deriving DecidableEq, Repr

/-- The per-column assignment step of `findFieldMatches`' scan loop. -/
def fieldScanStep (normalized : String) (r : FieldMatches)
    (col : ColumnSchema) : FieldMatches :=
  if containsSubstr normalized (jsToLower col.name) then
    if col.type == ColumnType.datetime then { r with xField := some col.name }
    else if col.type == ColumnType.number && r.yField == none then
      { r with yField := some col.name }
    else if col.type == ColumnType.string && r.colorField == none then
      { r with colorField := some col.name }
    else r
  else r

/-- The x-field default of `findFieldMatches`:
`if (!result.xField && dateColumns.length > 0) … else if (…categorical…)`. -/
def applyXDefault (r : FieldMatches)
    (dateColumns categoricalColumns : List ColumnSchema) : FieldMatches :=
  if !truthyStr r.xField then
    match dateColumns with
    | d :: _ => { r with xField := some d.name }
    | [] =>
      match categoricalColumns with
      | c :: _ => { r with xField := some c.name }
      | [] => r
  else r

/-- The y-field default of `findFieldMatches`. -/
def applyYDefault (r : FieldMatches)
    (numericColumns : List ColumnSchema) : FieldMatches :=
  if !truthyStr r.yField then
    match numericColumns with
    | n :: _ => { r with yField := some n.name }
    | [] => r
  else r

/-- The color-field default of `findFieldMatches`:
`find(c => c.name !== result.xField)?.name` (when the x field is undefined
the strict inequality holds for every column). -/
def applyColorDefault (r : FieldMatches)
    (categoricalColumns : List ColumnSchema) : FieldMatches :=
  if !truthyStr r.colorField && categoricalColumns.length > 1 then
    { r with colorField :=
        (categoricalColumns.find? (fun c =>
          match r.xField with
          | some x => c.name != x
          | none => true)).map ColumnSchema.name }
  else r

/-- `findFieldMatches`: the column scan followed by the three sequential
default assignments.  The default guards use JS truthiness
(`!result.xField` is true for `undefined` and for an empty string). -/
def findFieldMatches (text : String) (schema : DatasetSchema) : FieldMatches :=
  let normalized := normalizeText text
  let numericColumns := schema.columns.filter
    (fun c : ColumnSchema => c.type == ColumnType.number)
  let categoricalColumns := schema.columns.filter
    (fun c : ColumnSchema => c.type == ColumnType.string)
  let dateColumns := schema.columns.filter
    (fun c : ColumnSchema => c.type == ColumnType.datetime)
  let r0 := schema.columns.foldl (fieldScanStep normalized) {}
  applyColorDefault
    (applyYDefault (applyXDefault r0 dateColumns categoricalColumns)
      numericColumns)
    categoricalColumns

/-- `findAggregation` (the trailing `return 'sum'` makes the result total). -/
def findAggregation (text : String) : Aggregation :=
  let normalized := normalizeText text
  match AGGREGATION_KEYWORDS.find?
      (fun p => containsSubstr normalized p.1) with
  | some p => p.2
  | none => Aggregation.sum

/-- `parsePrompt`. -/
def parsePrompt (prompt : String) (schema : DatasetSchema) : ChartIntent :=
  let chartType := findChartType prompt
  let fieldMatches := findFieldMatches prompt schema
  let aggregation := findAggregation prompt
  { chartType := some (chartType.getD ChartType.bar)
    xField := fieldMatches.xField
    yField := fieldMatches.yField
    colorField := fieldMatches.colorField
    aggregation := some aggregation }

/-! ## Chart catalog and scorer (`chartRecommender` module) -/

/-- The structural requirement triple. -/
structure ChartRequirements where
  minNumeric : ℕ
  minCategorical : ℕ
  needsDatetime : Bool
deriving DecidableEq, Repr

/-- `ChartTypeInfo`. -/
structure ChartTypeInfo where
  type : ChartType
  name : String
  description : String
  category : ChartCategory
  requirements : ChartRequirements
deriving DecidableEq, Repr

/-- The static `CHART_TYPES` catalog, in declaration order. -/
def CHART_TYPES : List ChartTypeInfo :=
  [ { type := ChartType.bar
      name := "Bar Chart"
      description := "Compare values across categories"
      category := ChartCategory.comparison
      requirements := ⟨1, 1, false⟩ }
  , { type := ChartType.barHorizontal
      name := "Horizontal Bar Chart"
      description := "Compare values with long category labels"
      category := ChartCategory.comparison
      requirements := ⟨1, 1, false⟩ }
  , { type := ChartType.barStacked
      name := "Stacked Bar Chart"
      description := "Show composition within categories"
      category := ChartCategory.composition
      requirements := ⟨1, 2, false⟩ }
  , { type := ChartType.line
      name := "Line Chart"
      description := "Show trends over time"
      category := ChartCategory.trend
      requirements := ⟨1, 0, true⟩ }
  , { type := ChartType.area
      name := "Area Chart"
      description := "Show cumulative trends over time"
      category := ChartCategory.trend
      requirements := ⟨1, 0, true⟩ }
  , { type := ChartType.areaStacked
      name := "Stacked Area Chart"
      description := "Show composition trends over time"
      category := ChartCategory.trend
      requirements := ⟨1, 1, true⟩ }
  , { type := ChartType.scatter
      name := "Scatter Plot"
      description := "Explore relationships between two variables"
      category := ChartCategory.relationship
      requirements := ⟨2, 0, false⟩ }
  , { type := ChartType.bubble
      name := "Bubble Chart"
      description := "Explore relationships with size dimension"
      category := ChartCategory.relationship
      requirements := ⟨3, 0, false⟩ }
  , { type := ChartType.histogram
      name := "Histogram"
      description := "Show distribution of a numeric variable"
      category := ChartCategory.distribution
      requirements := ⟨1, 0, false⟩ }
  , { type := ChartType.boxplot
      name := "Box Plot"
      description := "Compare distributions across categories"
      category := ChartCategory.distribution
      requirements := ⟨1, 1, false⟩ }
  , { type := ChartType.heatmap
      name := "Heatmap"
      description := "Show intensity across two dimensions"
      category := ChartCategory.relationship
      requirements := ⟨1, 2, false⟩ }
  , { type := ChartType.pie
      name := "Pie Chart"
      description := "Show parts of a whole"
      category := ChartCategory.composition
      requirements := ⟨1, 1, false⟩ }
  , { type := ChartType.donut
      name := "Donut Chart"
      description := "Show parts of a whole with center space"
      category := ChartCategory.composition
      requirements := ⟨1, 1, false⟩ }
  , { type := ChartType.combo
      name := "Combo Chart"
      description := "Combine bar and line for different scales"
      category := ChartCategory.comparison
      requirements := ⟨2, 1, false⟩ }
  ]

/-- The three column groups of `getColumnsByType`. -/
structure ColumnsByType where
  numeric : List ColumnSchema
  categorical : List ColumnSchema
  datetime : List ColumnSchema
deriving DecidableEq, Repr

/-- `getColumnsByType`: note the `< 50` cardinality ceiling on categorical
columns. -/
def getColumnsByType (schema : DatasetSchema) : ColumnsByType :=
  { numeric := schema.columns.filter
      (fun c : ColumnSchema => c.type == ColumnType.number)
    categorical := schema.columns.filter
      (fun c : ColumnSchema => c.type == ColumnType.string && c.uniqueCount < 50)
    datetime := schema.columns.filter
      (fun c : ColumnSchema => c.type == ColumnType.datetime) }

/-- `calculateSuitability`.  The score is a natural number (all additions
are nonnegative), clamped to 100 as in the source. -/
def calculateSuitability (chartInfo : ChartTypeInfo)
    (numericCount categoricalCount : ℕ) (hasDatetime : Bool) : ℕ :=
  let requirements := chartInfo.requirements
  if numericCount < requirements.minNumeric then 0
  else if categoricalCount < requirements.minCategorical then 0
  else if requirements.needsDatetime && !hasDatetime then 0
  else
    let score := 50
    let score := score + (if numericCount == requirements.minNumeric then 10 else 0)
    let score := score +
      (if categoricalCount == requirements.minCategorical then 10 else 0)
    let score := score +
      (if requirements.needsDatetime == hasDatetime then 10 else 0)
    let score := score +
      (if chartInfo.type == ChartType.bar && categoricalCount ≥ 1 &&
          numericCount ≥ 1 then 15 else 0)
    let score := score +
      (if chartInfo.type == ChartType.line && hasDatetime then 20 else 0)
    let score := score +
      (if chartInfo.type == ChartType.scatter && numericCount ≥ 2 then 15 else 0)
    let score := score +
      (if chartInfo.type == ChartType.pie && categoricalCount == 1 &&
          numericCount == 1 then 10 else 0)
    min 100 score

/-- The `suggestedEncodings` record. -/
structure SuggestedEncodings where
  x : Option String := none
  y : Option String := none
  color : Option String := none
  size : Option String := none
deriving DecidableEq, Repr

/-- `ChartRecommendation`. -/
structure ChartRecommendation where
  type : ChartType
  title : String
  description : String
  category : ChartCategory
  suitabilityScore : ℕ
  suggestedEncodings : SuggestedEncodings
  vegaLiteSpec : VegaLiteSpec
deriving DecidableEq, Repr

/-- `generateChartTitle` (the `color ? … : …` branch uses JS truthiness). -/
def generateChartTitle (chartInfo : ChartTypeInfo)
    (encodings : SuggestedEncodings) : String :=
  let y := encodings.y.getD ""
  let x := encodings.x.getD ""
  let color := encodings.color
  match chartInfo.category with
  | ChartCategory.trend => y ++ " over " ++ x
  | ChartCategory.comparison =>
    if truthyStr color then
      y ++ " by " ++ x ++ " and " ++ color.getD ""
    else y ++ " by " ++ x
  | ChartCategory.distribution =>
    "Distribution of " ++ (if truthyStr encodings.y then y else x)
  | ChartCategory.relationship => y ++ " vs " ++ x
  | ChartCategory.composition => "Composition of " ++ y ++ " by " ++ x

/-- The loop body of `recommendCharts` for one catalog entry: computes the
score, the suggested encodings and the compiled spec, and returns the
recommendation to push (or `none` when the entry produces nothing). -/
def buildRecommendation (data : List Row) (cols : ColumnsByType)
    (chartInfo : ChartTypeInfo) : Option ChartRecommendation :=
  let numeric := cols.numeric
  let categorical := cols.categorical
  let datetime := cols.datetime
  let score := calculateSuitability chartInfo numeric.length categorical.length
    (datetime.length > 0)
  if score > 0 then
    let encX : Option String :=
      if chartInfo.requirements.needsDatetime && datetime.length > 0 then
        (datetime.head?).map ColumnSchema.name
      else if categorical.length > 0 then (categorical.head?).map ColumnSchema.name
      else if numeric.length > 0 then (numeric.head?).map ColumnSchema.name
      else none
    let encY : Option String :=
      if numeric.length > 0 then (numeric.head?).map ColumnSchema.name else none
    let encColor : Option String :=
      if categorical.length > 1 then (categorical.get? 1).map ColumnSchema.name
      else if categorical.length == 1 && chartInfo.type != ChartType.pie &&
          chartInfo.type != ChartType.donut then
        (categorical.head?).map ColumnSchema.name
      else none
    let encSize : Option String :=
      if numeric.length > 2 &&
          (chartInfo.type == ChartType.bubble ||
            chartInfo.type == ChartType.scatter) then
        (numeric.get? 2).map ColumnSchema.name
      else none
    let suggested : SuggestedEncodings :=
      { x := encX, y := encY, color := encColor, size := encSize }
    let x := encX.getD ""
    let y := jsOrStr encY x
    let color := encColor
    let size := encSize
    let vegaLiteSpec : Option VegaLiteSpec :=
      match chartInfo.type with
      | ChartType.bar => some (buildBarSpec data x y color)
      | ChartType.barHorizontal => some (buildBarSpec data x y color true)
      | ChartType.barStacked => some (buildBarSpec data x y color false true)
      | ChartType.line => some (buildLineSpec data x y color)
      | ChartType.area => some (buildAreaSpec data x y color)
      | ChartType.areaStacked => some (buildAreaSpec data x y color true)
      | ChartType.scatter => some (buildScatterSpec data x y color size)
      | ChartType.bubble => some (buildScatterSpec data x y color size)
      | ChartType.histogram => some (buildHistogramSpec data x)
      | ChartType.boxplot => some (buildBoxplotSpec data x y)
      | ChartType.heatmap =>
        some (buildHeatmapSpec data x (jsOrStr color y) y)
      | ChartType.pie => some (buildPieSpec data x y)
      | ChartType.donut => some (buildPieSpec data x y true)
      | ChartType.combo =>
        if numeric.length ≥ 2 then
          (numeric.get? 1).map (fun c => buildComboSpec data x y c.name)
        else none
      -- the switch has no clause for the remaining chart types, so
      -- `vegaLiteSpec` stays null and nothing is pushed
      | _ => none
    match vegaLiteSpec with
    | some spec =>
      some
        { type := chartInfo.type
          title := generateChartTitle chartInfo suggested
          description := chartInfo.description
          category := chartInfo.category
          suitabilityScore := score
          suggestedEncodings := suggested
          vegaLiteSpec := spec }
    | none => none
  else none

/-- Comparator order of `(a, b) => b.suitabilityScore - a.suitabilityScore`:
keep `a` before `b` exactly when `b.score ≤ a.score`. -/
def recScoreLe (a b : ChartRecommendation) : Bool :=
  decide (b.suitabilityScore ≤ a.suitabilityScore)

/-- `recommendCharts`: build one optional recommendation per catalog entry
in declaration order, then stable-sort by descending suitability score. -/
def recommendCharts (data : List Row) (schema : DatasetSchema) :
    List ChartRecommendation :=
  let cols := getColumnsByType schema
  sortWith recScoreLe (CHART_TYPES.filterMap (buildRecommendation data cols))

/-! ## Test fixtures -/

/-- A column schema with the metadata fields the claims never inspect left
at neutral values. -/
def mkColumn (name : String) (type : ColumnType) (uniqueCount : ℕ := 5) :
    ColumnSchema :=
  { name := name, type := type, sampleValues := [], uniqueCount := uniqueCount,
    nullCount := 0, nullShare := 0 }

/-! ## Claim C1 — type inference on the four spec columns -/

/-- **C1** (status: code bug).  Actual behaviour of `inferColumnType` on the
four columns of the claim: `["1","2","3"]` is `number` and
`["true","false","1"]` is `boolean` and `["Alice","Bob"]` is `string` as
claimed, but `["2024-01-01","2024-02-01"]` is inferred as `number`, not
`datetime` — and this holds for *every* `Date.parse` oracle, because
`parseFloat("2024-01-01".replace(/,/g,'')) = 2024` is not `NaN`, so the
all-numeric check fires before the date check is ever reached.  The
source's own `datePatterns` list an ISO prefix regex that can therefore
never decide a uniformly-ISO-dated string column.  The last three columns
use the oracle that rejects every string, which agrees with `Date.parse`
on `"Alice"`/`"Bob"` (NaN) and is irrelevant to the first two (they never
reach the date check). -/
theorem c1_inferColumnType_eval :
    (∀ dateParse : String → Bool,
      inferColumnType dateParse
        [JsValue.str "2024-01-01", JsValue.str "2024-02-01"] =
        ColumnType.number) ∧
    inferColumnType (fun _ => false)
      [JsValue.str "1", JsValue.str "2", JsValue.str "3"] = ColumnType.number ∧
    inferColumnType (fun _ => false)
      [JsValue.str "true", JsValue.str "false", JsValue.str "1"] =
      ColumnType.boolean ∧
    inferColumnType (fun _ => false)
      [JsValue.str "Alice", JsValue.str "Bob"] = ColumnType.string := by
  refine ⟨fun dateParse => ?_, by decide, by decide, by decide⟩
  rfl

/-! ## Claim C2 — insight scenario for measure values [10, 20, 30, 1000] -/

/-- Single-measure dataset carrying the values 10, 20, 30, 1000. -/
def dataC2 : List Row :=
  [ [("value", JsValue.num 10)]
  , [("value", JsValue.num 20)]
  , [("value", JsValue.num 30)]
  , [("value", JsValue.num 1000)] ]

def schemaC2 : DatasetSchema :=
  { columns := [mkColumn "value" ColumnType.number]
    rowCount := 4, fileName := "t.csv", fileType := FileType.csv }

/-- **C2 counterexample.**  For the measure values [10, 20, 30, 1000] the
outlier list of `calculateStats` is empty and `generateInsights` emits no
outlier insight: the mean is 265 and the population variance is 180125, so
2σ ≈ 848.8 while the largest deviation is |1000 − 265| = 735 — no value
deviates by more than two standard deviations, contrary to the claim. -/
theorem c2_no_outlier_counterexample :
    (calculateStats [10, 20, 30, 1000]).outliers = [] ∧
    (calculateStats [10, 20, 30, 1000]).mean = 265 ∧
    (calculateStats [10, 20, 30, 1000]).variance = 180125 ∧
    (generateInsights dataC2 schemaC2 none (some "value")).filter
      (fun i => i.type == InsightKind.outlier) = [] := by
  refine ⟨by decide, by decide, by decide, by decide⟩

/-- **C2** (status: corrected).  The amended insight scenario: the insight
list for measure values [10, 20, 30, 1000] consists exactly of the max
insight with value 1000 rendered "1.0K", the min insight with value 10,
and a high-variability distribution insight — no outlier insight is
emitted, because no value deviates by more than two population standard
deviations from the mean (2σ ≈ 848.8 > 735). -/
theorem c2_insight_scenario :
    generateInsights dataC2 schemaC2 none (some "value") =
      [ { type := InsightKind.max, title := "Highest Value"
          description := "The maximum value is 1.0K", value := some 1000 }
      , { type := InsightKind.min, title := "Lowest Value"
          description := "The minimum value is 10", value := some 10 }
      , { type := InsightKind.distribution, title := "High Variability"
          description := "value values vary widely (range: 990)"
          value := none } ] := by
  decide

/-! ## Claim C3 — target column selection in `generateInsights` -/

def schemaC3 : DatasetSchema :=
  { columns := [mkColumn "A" ColumnType.number, mkColumn "B" ColumnType.string]
    rowCount := 1, fileName := "t.csv", fileType := FileType.csv }

def dataC3 : List Row := [[("A", JsValue.num 1), ("B", JsValue.str "x")]]

/-- **C3 counterexample.**  A y hint naming the non-numeric column `"B"`
yields the empty insight list even though the numeric column `"A"` exists
(and yields three insights when named), refuting the claimed fall-back to
the first numeric column. -/
theorem c3_bad_hint_counterexample :
    generateInsights dataC3 schemaC3 none (some "B") = [] ∧
    generateInsights dataC3 schemaC3 none (some "A") ≠ [] := by
  refine ⟨by decide, by decide⟩

/-! ## Claim C10 — colorField can coincide with xField -/

def schemaC10 : DatasetSchema :=
  { columns :=
      [mkColumn "Sales" ColumnType.number, mkColumn "Category" ColumnType.string]
    rowCount := 3, fileName := "s.csv", fileType := FileType.csv }

/-- **C10** (status: confirmed).  On a schema with columns Sales (number)
and Category (the only string column), the prompt
"Show sales by category as a bar chart" parses to an intent in which the
color field equals the x field: both are bound to "Category" (the column
scan assigns the mentioned string column to color, and the default x
binding then also picks the first categorical column). -/
theorem c10_color_equals_x :
    parsePrompt "Show sales by category as a bar chart" schemaC10 =
      { chartType := some ChartType.bar
        xField := some "Category"
        yField := some "Sales"
        colorField := some "Category"
        sizeField := none
        aggregation := some Aggregation.sum } ∧
    (parsePrompt "Show sales by category as a bar chart" schemaC10).colorField =
      (parsePrompt "Show sales by category as a bar chart" schemaC10).xField := by
  refine ⟨by decide, by decide⟩

/-! ## Claim C8 — longest-keyword-first chart-type detection -/

/-- **C8 counterexample.**  The normalized prompt
"scatter plot with stacked bar" contains "stacked bar", yet the detected
chart type is `scatter`, not `bar-stacked`: the 12-character keyword
"scatter plot" is checked before the 11-character "stacked bar" in the
length-descending scan, so containing "stacked bar" does *not* guarantee
the result `bar-stacked`. -/
theorem c8_substring_counterexample :
    containsSubstr (normalizeText "scatter plot with stacked bar")
      "stacked bar" = true ∧
    findChartType "scatter plot with stacked bar" =
      some ChartType.scatter := by
  refine ⟨by decide, by decide⟩

/-- `List.find?` returns the designated element after a prefix of
non-matches. -/
theorem find?_append_of_prefix {α : Type} (p : α → Bool) (k : α) :
    ∀ (l1 l2 : List α), (∀ x ∈ l1, p x = false) → p k = true →
      List.find? p (l1 ++ k :: l2) = some k := by
  intro l1 l2 h hk
  induction l1 with
  | nil => simp [List.find?_cons, hk]
  | cons a l1 ih =>
    have ha : p a = false := h a (List.mem_cons_self a l1)
    simp only [List.cons_append, List.find?_cons, ha]
    exact ih (fun x hx => h x (List.mem_cons_of_mem a hx))

/-- The concrete split of the stably length-sorted keyword list around
"stacked bar": everything before it is a keyword of length ≥ 11 other
than "stacked bar" itself. -/
def keywordsBeforeStackedBar : List String :=
  [ "horizontal bar", "yığılmış çubuk", "yığılmış alan", "çubuk grafik"
  , "sütun grafik", "çizgi grafik", "zaman serisi", "stacked area"
  , "scatter plot", "bubble chart", "distribution", "ısı haritası"
  , "pasta grafik", "yatay çubuk" ]

def keywordsAfterStackedBar : List String :=
  [ "time series", "alan grafik", "line chart", "area chart", "histograms"
  , "bar chart", "histogram", "pie chart", "box plot", "heat map"
  , "combined", "birleşik", "scatter", "saçılım", "dağılım", "boxplot"
  , "heatmap", "bubble", "çubuk", "sütun", "çizgi", "trend", "nokta"
  , "balon", "pasta", "donut", "halka", "combo", "line", "area", "alan"
  , "kutu", "bar", "pie" ]

theorem sortedKeywords_split :
    sortedKeywords =
      keywordsBeforeStackedBar ++ "stacked bar" :: keywordsAfterStackedBar := by
  decide

/-- **C8** (status: corrected).  Amended statement: the scan checks longer
keywords before shorter ones, so a prompt whose normalized text contains
"stacked bar" yields chart type `bar-stacked` *provided no other keyword of
length ≥ 11 (the length of "stacked bar") also occurs* — without that
proviso a longer (or equally long, earlier-ranked) matching keyword wins,
as the counterexample shows. -/
theorem c8_stacked_bar_detection :
    ∀ prompt : String,
      containsSubstr (normalizeText prompt) "stacked bar" = true →
      (∀ k ∈ CHART_TYPE_KEYWORDS.map Prod.fst, k ≠ "stacked bar" →
        11 ≤ k.length → containsSubstr (normalizeText prompt) k = false) →
      findChartType prompt = some ChartType.barStacked := by
  intro prompt hsb h
  have hpre : ∀ x ∈ keywordsBeforeStackedBar,
      containsSubstr (normalizeText prompt) x = false := by
    intro x hx
    fin_cases hx <;> exact h _ (by decide) (by decide) (by decide)
  have hfind : sortedKeywords.find?
      (fun keyword => containsSubstr (normalizeText prompt) keyword) =
      some "stacked bar" := by
    rw [sortedKeywords_split]
    exact find?_append_of_prefix _ _ _ _ hpre hsb
  simp only [findChartType, hfind]
  decide

/-- **C8 witness.**  A prompt containing "stacked bar" and no other
keyword of length ≥ 11 is detected as `bar-stacked`. -/
theorem c8_stacked_bar_detection_witness :
    findChartType "draw a stacked bar of sales" =
      some ChartType.barStacked :=
  c8_stacked_bar_detection "draw a stacked bar of sales" (by decide)
    (by decide)

/-! ## Claim C9 — size channel of the point family -/

def schemaC9 : DatasetSchema :=
  { columns := [mkColumn "A" ColumnType.number, mkColumn "B" ColumnType.number]
    rowCount := 0, fileName := "t.csv", fileType := FileType.csv }

def intentC9 : ChartIntent :=
  { chartType := some ChartType.bubble, xField := some "A", yField := some "B" }

/-- **C9 counterexample.**  A bubble intent with *no* size field but a y
field compiles to a spec whose size channel is present (bound to the y
field), because the source passes `sizeField || yField` to the scatter
builder for bubbles — refuting "the size channel is added only when a
size field is supplied" for the point family as a whole. -/
theorem c9_bubble_counterexample :
    intentC9.sizeField = none ∧
    intentC9.chartType = some ChartType.bubble ∧
    (buildSpecFromIntent [] schemaC9 intentC9).bind
      (fun s => s.encoding.size) =
      some { fieldName := some "B", channelType := some "quantitative" } := by
  refine ⟨rfl, rfl, by decide⟩

/-- **C9** (status: corrected).  Amended statement: for a *scatter* intent
the compiled spec's size channel is present exactly when a (truthy) size
field is supplied; for a *bubble* intent the builder receives
`sizeField || yField`, so the size channel is present exactly when the
size field or, failing that, the y field is truthy. -/
theorem c9_size_channel :
    ∀ (data : List Row) (schema : DatasetSchema) (intent : ChartIntent)
      (spec : VegaLiteSpec),
      buildSpecFromIntent data schema intent = some spec →
      (intent.chartType = some ChartType.scatter →
        spec.encoding.size.isSome = truthyStr intent.sizeField) ∧
      (intent.chartType = some ChartType.bubble →
        spec.encoding.size.isSome =
          truthyStr (jsOrOpt intent.sizeField intent.yField)) := by
  intro data schema intent spec h
  rcases hct : intent.chartType with _ | ct
  · simp only [buildSpecFromIntent, hct] at h
    exact absurd h (by simp)
  rcases hx : intent.xField with _ | x
  · simp only [buildSpecFromIntent, hct, hx] at h
    exact absurd h (by simp)
  simp only [buildSpecFromIntent, hct, hx] at h
  by_cases hxe : x.isEmpty = true
  · rw [if_pos hxe] at h
    exact absurd h (by simp)
  rw [if_neg hxe] at h
  have hspec := Option.some.inj h
  constructor
  · intro hctype
    have hcs : ct = ChartType.scatter := Option.some.inj hctype
    subst hcs
    rw [← hspec]
    simp only [buildScatterSpec]
    rcases hts : truthyStr intent.sizeField <;> simp [hts]
  · intro hctype
    have hcb : ct = ChartType.bubble := Option.some.inj hctype
    subst hcb
    rw [← hspec]
    simp only [buildScatterSpec]
    rcases hts : truthyStr (jsOrOpt intent.sizeField intent.yField) <;>
      simp [hts]

/-- **C9 witness.**  Instantiation at a scatter intent with no size field
and the bubble intent above: the scatter spec has no size channel, the
bubble spec's size presence equals the truthiness of the y fallback. -/
def intentC9s : ChartIntent :=
  { chartType := some ChartType.scatter, xField := some "A",
    yField := some "B" }

theorem c9_size_channel_witness :
    ((intentC9s.chartType = some ChartType.scatter →
      (buildScatterSpec [] "A" "B" none none).encoding.size.isSome =
        truthyStr intentC9s.sizeField) ∧
    (intentC9s.chartType = some ChartType.bubble →
      (buildScatterSpec [] "A" "B" none none).encoding.size.isSome =
        truthyStr (jsOrOpt intentC9s.sizeField intentC9s.yField))) :=
  c9_size_channel [] schemaC9 intentC9s (buildScatterSpec [] "A" "B" none none)
    (by decide)

/-! ## Claim C5 — the compile gate of `buildSpecFromIntent` -/

/-- **C5** (status: confirmed).  For every dataset, schema and intent whose
x field is not the degenerate empty string, `buildSpecFromIntent` (a total
function — the embedding of "never throws") returns `none` exactly when
the chart type or the x field is absent; when both are present every
switch arm, including the default, produces a complete spec document. -/
theorem c5_compile_gate :
    ∀ (data : List Row) (schema : DatasetSchema) (intent : ChartIntent),
      (∀ s, intent.xField = some s → s ≠ "") →
      (buildSpecFromIntent data schema intent = none ↔
        intent.chartType = none ∨ intent.xField = none) := by
  intro data schema intent hx
  rcases hct : intent.chartType with _ | ct
  · simp [buildSpecFromIntent, hct]
  rcases hxf : intent.xField with _ | x
  · simp [buildSpecFromIntent, hct, hxf]
  have hne : x.isEmpty = false := by
    rcases hxe : x.isEmpty with _ | _
    · rfl
    · exact absurd ((String.isEmpty_iff x).mp hxe) (hx x hxf)
  simp [buildSpecFromIntent, hct, hxf, hne]

def intentC5 : ChartIntent :=
  { chartType := some ChartType.bar, xField := some "X" }

/-- **C5 witness.**  Instantiation at a bar intent with x field "X". -/
theorem c5_compile_gate_witness :
    buildSpecFromIntent [] schemaC9 intentC5 = none ↔
      intentC5.chartType = none ∨ intentC5.xField = none :=
  c5_compile_gate [] schemaC9 intentC5
    (by intro s h; injection h with h; subst h; decide)

/-- **C3** (status: corrected).  Amended target-column selection: a truthy
y hint selects the named column via `find?` over the numeric columns — so
when the named column is numeric it *is* the analyzed target and the
insights are computed over it; when the named column is not numeric (or
does not exist) the insight list is *empty*, not computed over the first
numeric column; the first-numeric fallback applies only when no y hint is
given, and then the result coincides with hinting the first numeric
column explicitly. -/
theorem c3_target_selection :
    ∀ (data : List Row) (schema : DatasetSchema) (x : Option String),
      (∀ (y : String) (c : ColumnSchema), y ≠ "" →
        (numericColumnsOf schema).find?
          (fun col : ColumnSchema => col.name == y) = some c →
        targetColumnOf schema (some y) = some c ∧
        generateInsights data schema x (some y) =
          if data.isEmpty then []
          else insightsForTarget data schema x c) ∧
      (∀ y : String, y ≠ "" →
        (numericColumnsOf schema).find?
          (fun col : ColumnSchema => col.name == y) = none →
        generateInsights data schema x (some y) = []) ∧
      (∀ (c : ColumnSchema) (cs : List ColumnSchema),
        numericColumnsOf schema = c :: cs →
        generateInsights data schema x none =
          generateInsights data schema x (some c.name)) := by
  intro data schema x
  refine ⟨?_, ?_, ?_⟩
  · intro y c hy hfind
    have hty : truthyStr (some y) = true := by
      simp only [truthyStr, Bool.not_eq_true']
      exact Bool.eq_false_iff.mpr (fun h => hy ((String.isEmpty_iff y).mp h))
    have htarget : targetColumnOf schema (some y) = some c := by
      simp [targetColumnOf, hty, hfind]
    refine ⟨htarget, ?_⟩
    by_cases hd : data.isEmpty
    · simp [generateInsights, hd]
    · simp [generateInsights, hd, htarget]
  · intro y hy hfind
    by_cases hd : data.isEmpty
    · simp [generateInsights, hd]
    · have hty : truthyStr (some y) = true := by
        simp only [truthyStr, Bool.not_eq_true']
        exact Bool.eq_false_iff.mpr (fun h => hy ((String.isEmpty_iff y).mp h))
      simp [generateInsights, hd, targetColumnOf, hty, hfind]
  · intro c cs hcols
    by_cases hd : data.isEmpty
    · simp [generateInsights, hd]
    · have h1 : targetColumnOf schema none = some c := by
        simp [targetColumnOf, truthyStr, hcols]
      have h2 : targetColumnOf schema (some c.name) = some c := by
        by_cases hce : c.name.isEmpty = true
        · simp [targetColumnOf, truthyStr, hce, hcols]
        · simp [targetColumnOf, truthyStr, hce, hcols, List.find?_cons]
      simp [generateInsights, hd, h1, h2]

/-- **C3 witness.**  On the concrete two-column schema: the y hint "A"
names the numeric column, which becomes the analyzed target (the insights
are computed over it), while the y hint "Missing" names no numeric column
and yields the empty insight list. -/
theorem c3_target_selection_witness :
    (targetColumnOf schemaC3 (some "A") =
        some (mkColumn "A" ColumnType.number) ∧
      generateInsights dataC3 schemaC3 none (some "A") =
        if dataC3.isEmpty then []
        else insightsForTarget dataC3 schemaC3 none
          (mkColumn "A" ColumnType.number)) ∧
    generateInsights dataC3 schemaC3 none (some "Missing") = [] :=
  ⟨(c3_target_selection dataC3 schemaC3 none).1 "A"
      (mkColumn "A" ColumnType.number) (by decide) (by decide),
    (c3_target_selection dataC3 schemaC3 none).2.1 "Missing" (by decide)
      (by decide)⟩

/-! ## Claim C4 — the hard gate of the suitability scorer -/

theorem calculateSuitability_gate (info : ChartTypeInfo) (nc cc : ℕ)
    (hd : Bool) :
    (nc < info.requirements.minNumeric ∨
      cc < info.requirements.minCategorical ∨
      (info.requirements.needsDatetime = true ∧ hd = false)) →
    calculateSuitability info nc cc hd = 0 := by
  intro h
  rcases h with h | h | ⟨hn, hdf⟩
  · simp [calculateSuitability, h]
  · by_cases h1 : nc < info.requirements.minNumeric
    · simp [calculateSuitability, h1]
    · simp [calculateSuitability, h1, h]
  · by_cases h1 : nc < info.requirements.minNumeric
    · simp [calculateSuitability, h1]
    · by_cases h2 : cc < info.requirements.minCategorical
      · simp [calculateSuitability, h1, h2]
      · simp [calculateSuitability, h1, h2, hn, hdf]

theorem buildRecommendation_some (data : List Row) (cols : ColumnsByType)
    (ci : ChartTypeInfo) (r : ChartRecommendation) :
    buildRecommendation data cols ci = some r →
    r.type = ci.type ∧
      calculateSuitability ci cols.numeric.length cols.categorical.length
        (cols.datetime.length > 0) ≠ 0 := by
  intro h
  simp only [buildRecommendation] at h
  by_cases hs : calculateSuitability ci cols.numeric.length
      cols.categorical.length (cols.datetime.length > 0) > 0
  · rw [if_pos hs] at h
    refine And.intro ?_ (Nat.pos_iff_ne_zero.mp hs)
    split at h
    · have hrec := Option.some.inj h
      rw [← hrec]
    · exact absurd h (by simp)
  · rw [if_neg hs] at h
    exact absurd h (by simp)

theorem mem_recommendCharts (data : List Row) (schema : DatasetSchema)
    (r : ChartRecommendation) :
    r ∈ recommendCharts data schema →
    ∃ ci ∈ CHART_TYPES,
      buildRecommendation data (getColumnsByType schema) ci = some r := by
  intro h
  have h' : r ∈ CHART_TYPES.filterMap
      (buildRecommendation data (getColumnsByType schema)) :=
    (mem_sortWith recScoreLe r _).mp h
  exact List.mem_filterMap.mp h'

/-- The catalog assigns each chart type to at most one entry. -/
theorem chart_types_type_injective :
    ∀ a ∈ CHART_TYPES, ∀ b ∈ CHART_TYPES, a.type = b.type → a = b := by
  decide

/-- **C4** (status: confirmed).  For every dataset, schema and catalog
archetype: when the schema's numeric-column count is below the archetype's
minimum, or its categorical count (string columns with fewer than 50
distinct values) is below the minimum, or a required temporal column is
missing, the suitability score is exactly 0 and the archetype's chart type
is absent from the recommendation output. -/
theorem c4_hard_gate :
    ∀ (data : List Row) (schema : DatasetSchema) (info : ChartTypeInfo),
      info ∈ CHART_TYPES →
      ((getColumnsByType schema).numeric.length <
          info.requirements.minNumeric ∨
        (getColumnsByType schema).categorical.length <
          info.requirements.minCategorical ∨
        (info.requirements.needsDatetime = true ∧
          (getColumnsByType schema).datetime = [])) →
      calculateSuitability info (getColumnsByType schema).numeric.length
        (getColumnsByType schema).categorical.length
        ((getColumnsByType schema).datetime.length > 0) = 0 ∧
      info.type ∉ (recommendCharts data schema).map ChartRecommendation.type := by
  intro data schema info hmem hgate
  have hzero : calculateSuitability info
      (getColumnsByType schema).numeric.length
      (getColumnsByType schema).categorical.length
      ((getColumnsByType schema).datetime.length > 0) = 0 := by
    apply calculateSuitability_gate
    rcases hgate with h | h | ⟨hn, hde⟩
    · exact Or.inl h
    · exact Or.inr (Or.inl h)
    · refine Or.inr (Or.inr ⟨hn, ?_⟩)
      rw [hde]
      rfl
  refine ⟨hzero, ?_⟩
  intro habs
  rcases List.mem_map.mp habs with ⟨r, hr, htype⟩
  rcases mem_recommendCharts data schema r hr with ⟨ci, hci, hbuild⟩
  rcases buildRecommendation_some data _ ci r hbuild with ⟨hcitype, hscore⟩
  have hcieq : ci = info :=
    chart_types_type_injective ci hci info hmem (by rw [← hcitype, htype])
  rw [hcieq] at hscore
  exact hscore hzero

def schemaC4 : DatasetSchema :=
  { columns := [], rowCount := 0, fileName := "", fileType := FileType.csv }

def infoC4 : ChartTypeInfo :=
  { type := ChartType.scatter
    name := "Scatter Plot"
    description := "Explore relationships between two variables"
    category := ChartCategory.relationship
    requirements := ⟨2, 0, false⟩ }

/-- **C4 witness.**  On the empty schema the scatter archetype (minimum 2
numeric columns) scores 0 and is absent from the output. -/
theorem c4_hard_gate_witness :
    calculateSuitability infoC4 (getColumnsByType schemaC4).numeric.length
      (getColumnsByType schemaC4).categorical.length
      ((getColumnsByType schemaC4).datetime.length > 0) = 0 ∧
    infoC4.type ∉ (recommendCharts [] schemaC4).map ChartRecommendation.type :=
  c4_hard_gate [] schemaC4 infoC4 (by decide) (Or.inl (by decide))

/-! ## Claim C6 — stable descending ordering of recommendations -/

theorem insertWith_rec_pairwise (a : ChartRecommendation) :
    ∀ l : List ChartRecommendation,
      List.Pairwise
        (fun p q => q.suitabilityScore ≤ p.suitabilityScore) l →
      List.Pairwise
        (fun p q => q.suitabilityScore ≤ p.suitabilityScore)
        (insertWith recScoreLe a l) := by
  intro l
  induction l with
  | nil => intro _; simp [insertWith]
  | cons b l ih =>
    intro hp
    rcases List.pairwise_cons.mp hp with ⟨hb, hl⟩
    by_cases hle : recScoreLe a b = true
    · rw [insertWith, if_pos hle]
      refine List.pairwise_cons.mpr ⟨?_, hp⟩
      intro c hc
      have hba : b.suitabilityScore ≤ a.suitabilityScore :=
        of_decide_eq_true hle
      rcases List.mem_cons.mp hc with rfl | hc
      · exact hba
      · exact le_trans (hb c hc) hba
    · rw [insertWith, if_neg hle]
      refine List.pairwise_cons.mpr ⟨?_, ih hl⟩
      intro c hc
      have hab : a.suitabilityScore ≤ b.suitabilityScore := by
        have := of_decide_eq_false (Bool.eq_false_iff.mpr hle)
        exact le_of_lt (Nat.lt_of_not_le this)
      rcases (mem_insertWith recScoreLe a c l).mp hc with rfl | hc
      · exact hab
      · exact hb c hc

theorem sortWith_rec_pairwise :
    ∀ l : List ChartRecommendation,
      List.Pairwise
        (fun p q => q.suitabilityScore ≤ p.suitabilityScore)
        (sortWith recScoreLe l) := by
  intro l
  induction l with
  | nil => simp [sortWith]
  | cons x xs ih => exact insertWith_rec_pairwise x _ ih

theorem insertWith_rec_filter (s : ℕ) (a : ChartRecommendation) :
    ∀ l : List ChartRecommendation,
      (insertWith recScoreLe a l).filter
        (fun r => r.suitabilityScore == s) =
      (a :: l).filter (fun r => r.suitabilityScore == s) := by
  intro l
  induction l with
  | nil => rfl
  | cons b l ih =>
    by_cases hle : recScoreLe a b = true
    · rw [insertWith, if_pos hle]
    · rw [insertWith, if_neg hle]
      by_cases hpa : (a.suitabilityScore == s) = true
      · by_cases hpb : (b.suitabilityScore == s) = true
        · exfalso
          apply hle
          have ha : a.suitabilityScore = s := eq_of_beq hpa
          have hb : b.suitabilityScore = s := eq_of_beq hpb
          simp [recScoreLe, ha, hb]
        · simp only [List.filter_cons, hpb, hpa, if_true, if_false,
            Bool.false_eq_true, ite_false, ite_true]
          rw [ih]
          simp [List.filter_cons, hpa, hpb]
      · simp only [List.filter_cons, hpa, Bool.false_eq_true, ite_false]
        rw [ih]
        simp [List.filter_cons, hpa]

theorem sortWith_rec_filter (s : ℕ) :
    ∀ l : List ChartRecommendation,
      (sortWith recScoreLe l).filter (fun r => r.suitabilityScore == s) =
        l.filter (fun r => r.suitabilityScore == s) := by
  intro l
  induction l with
  | nil => rfl
  | cons x xs ih =>
    have h1 : sortWith recScoreLe (x :: xs) =
        insertWith recScoreLe x (sortWith recScoreLe xs) := rfl
    rw [h1, insertWith_rec_filter]
    simp only [List.filter_cons, ih]

theorem filterMap_filter_types_sublist
    (f : ChartTypeInfo → Option ChartRecommendation)
    (p : ChartRecommendation → Bool)
    (hf : ∀ ci r, f ci = some r → r.type = ci.type) :
    ∀ l : List ChartTypeInfo,
      List.Sublist (((l.filterMap f).filter p).map ChartRecommendation.type)
        (l.map ChartTypeInfo.type) := by
  intro l
  induction l with
  | nil => simp
  | cons ci l ih =>
    rcases hci : f ci with _ | r
    · rw [List.filterMap_cons_none hci, List.map_cons]
      exact List.Sublist.cons _ ih
    · rw [List.filterMap_cons_some hci, List.map_cons]
      by_cases hp : p r = true
      · rw [List.filter_cons_of_pos hp, List.map_cons, hf ci r hci]
        exact List.Sublist.cons₂ _ ih
      · rw [List.filter_cons_of_neg (by simp [hp])]
        exact List.Sublist.cons _ ih

/-- **C6** (status: confirmed).  The recommendation list is sorted by
descending suitability score, and for every score value the subsequence of
recommendations carrying that score lists its chart types in catalog
declaration order (it is a sublist of the catalog's type sequence) — the
ECMA-262 stable sort preserves the declaration-order construction. -/
theorem c6_stable_ordering :
    ∀ (data : List Row) (schema : DatasetSchema),
      List.Pairwise
        (fun p q => q.suitabilityScore ≤ p.suitabilityScore)
        (recommendCharts data schema) ∧
      ∀ s : ℕ,
        List.Sublist
          (((recommendCharts data schema).filter
              (fun r => r.suitabilityScore == s)).map
            ChartRecommendation.type)
          (CHART_TYPES.map ChartTypeInfo.type) := by
  intro data schema
  constructor
  · exact sortWith_rec_pairwise _
  · intro s
    have hdef : recommendCharts data schema =
        sortWith recScoreLe (CHART_TYPES.filterMap
          (buildRecommendation data (getColumnsByType schema))) := rfl
    rw [hdef, sortWith_rec_filter]
    exact filterMap_filter_types_sublist _ _
      (fun ci r h => (buildRecommendation_some data _ ci r h).1) _

/-! ## Claim C7 — default intent for keyword-free prompts -/

theorem truthyStr_none : truthyStr none = false := rfl

theorem findChartType_none (prompt : String)
    (h1 : ∀ k ∈ CHART_TYPE_KEYWORDS.map Prod.fst,
      containsSubstr (normalizeText prompt) k = false)
    (h2 : ∀ k ∈ TIME_KEYWORDS,
      containsSubstr (normalizeText prompt) k = false) :
    findChartType prompt = none := by
  have hfind : sortedKeywords.find?
      (fun keyword => containsSubstr (normalizeText prompt) keyword) = none := by
    apply List.find?_eq_none.mpr
    intro k hk
    have hmem : k ∈ CHART_TYPE_KEYWORDS.map Prod.fst :=
      (mem_sortWith _ k _).mp hk
    simp [h1 k hmem]
  have hany : TIME_KEYWORDS.any
      (fun timeKeyword => containsSubstr (normalizeText prompt) timeKeyword) =
      false := by
    rw [List.any_eq_false]
    intro k hk
    simp [h2 k hk]
  simp [findChartType, hfind, hany]

theorem foldl_fieldScanStep_id (n : String) :
    ∀ (cols : List ColumnSchema) (r : FieldMatches),
      (∀ c ∈ cols, containsSubstr n (jsToLower c.name) = false) →
      cols.foldl (fieldScanStep n) r = r := by
  intro cols
  induction cols with
  | nil => intro r _; rfl
  | cons c cols ih =>
    intro r h
    have hc : containsSubstr n (jsToLower c.name) = false :=
      h c (List.mem_cons_self c cols)
    have hstep : fieldScanStep n r c = r := by
      simp [fieldScanStep, hc]
    rw [List.foldl_cons, hstep]
    exact ih r (fun x hx => h x (List.mem_cons_of_mem c hx))

/-- **C7** (status: confirmed).  Parsing a prompt that mentions no chart
keyword, no time keyword and no column name (the empty prompt in
particular) against a schema with at least one numeric column yields the
default intent: chart type bar, y field bound to the first numeric column. -/
theorem c7_intent_default :
    ∀ (prompt : String) (schema : DatasetSchema),
      (∀ k ∈ CHART_TYPE_KEYWORDS.map Prod.fst,
        containsSubstr (normalizeText prompt) k = false) →
      (∀ k ∈ TIME_KEYWORDS,
        containsSubstr (normalizeText prompt) k = false) →
      (∀ c ∈ schema.columns,
        containsSubstr (normalizeText prompt) (jsToLower c.name) = false) →
      ∀ (c : ColumnSchema) (cs : List ColumnSchema),
        schema.columns.filter
          (fun col : ColumnSchema => col.type == ColumnType.number) = c :: cs →
        (parsePrompt prompt schema).chartType = some ChartType.bar ∧
        (parsePrompt prompt schema).yField = some c.name := by
  intro prompt schema h1 h2 h3 c cs hcols
  have hct : findChartType prompt = none := findChartType_none prompt h1 h2
  have hscan : schema.columns.foldl
      (fieldScanStep (normalizeText prompt)) {} = ({} : FieldMatches) :=
    foldl_fieldScanStep_id _ _ _ h3
  have hx0 : ∀ dc cc, (applyXDefault {} dc cc).yField = none := by
    intro dc cc
    rcases dc with _ | ⟨d, ds⟩ <;> rcases cc with _ | ⟨e, es⟩ <;>
      simp [applyXDefault, truthyStr]
  have hcolor : ∀ (r : FieldMatches) cc,
      (applyColorDefault r cc).yField = r.yField := by
    intro r cc
    rw [applyColorDefault]
    split <;> rfl
  have hyf : (findFieldMatches prompt schema).yField = some c.name := by
    simp only [findFieldMatches, hscan, hcols, hcolor]
    rw [applyYDefault, hx0, truthyStr_none]
    simp
  constructor
  · simp [parsePrompt, hct]
  · simp only [parsePrompt]
    exact hyf

def schemaC7 : DatasetSchema :=
  { columns := [mkColumn "Sales" ColumnType.number]
    rowCount := 1, fileName := "d.csv", fileType := FileType.csv }

/-- **C7 witness.**  The empty prompt against a one-numeric-column schema
parses to chart type bar with y bound to that column. -/
theorem c7_intent_default_witness :
    (parsePrompt "" schemaC7).chartType = some ChartType.bar ∧
    (parsePrompt "" schemaC7).yField =
      some (mkColumn "Sales" ColumnType.number).name :=
  c7_intent_default "" schemaC7 (by decide) (by decide) (by decide)
    (mkColumn "Sales" ColumnType.number) [] (by decide)
